import Mathlib

/-!
Shallow embedding of `allauth/socialaccount/models.py` (the social-login
subsystem: `SocialApp`, `SocialAccount`, `SocialToken`, `SocialLogin`).

Modelling conventions:
* Django model instances become Lean structures; an unsaved instance has
  `pk = none`.  Django never assigns primary key `0`, so Python truthiness
  of `instance.pk` is modelled as `Option.isSome`.
* The database becomes an explicit `DB` record of row lists plus a single
  fresh-primary-key counter (Django uses one sequence per table; a shared
  counter is an equivalent abstraction that additionally records the order
  in which rows were inserted).
* Python exceptions become the `Exc` error type of an `Except` result.
  Django's per-model `DoesNotExist` classes are distinct (an
  `except SocialAccount.DoesNotExist` clause does not catch
  `SocialToken.DoesNotExist`), hence one constructor per model.
* `request.session['socialaccount_state']` becomes the
  `Session.socialaccount_state` field; `dict.pop` removes it.
* Configuration flags (`app_settings.STORE_TOKENS`) and request-derived
  data (`get_current_site(request).id`) are passed as explicit arguments.
-/

/-- JSON-like string map used for `SocialLogin.state` (a Python `dict`). -/
abbrev StateMap := List (String × String)

/-- JSON-like string map used for `SocialAccount.extra_data` (a `JSONField`). -/
abbrev ExtraData := List (String × String)

/-- Python exceptions raised by the code under `src/allauth/socialaccount/models.py`. -/
inductive Exc where
  | appDoesNotExist
  | accountDoesNotExist
  | tokenDoesNotExist
  | userDoesNotExist
  | multipleObjectsReturned
  | assertionError
  | nameError
  | permissionDenied
deriving Repr, DecidableEq

/-- Row of the `SocialApp` model (provider, name, client_id, secret, key,
many-to-many `sites` as a list of site ids). -/
structure SocialApp where
  id : Nat
  provider : String
  name : String
  client_id : String
  secret : String
  key : String
  sites : List Nat
deriving Repr, DecidableEq

/-- Row of the (swappable) user model; `save` follows Django's
insert-or-update rule on `pk`. -/
structure User where
  pk : Option Nat
  username : String
  email : String
deriving Repr, DecidableEq

/-- Row of `allauth.account.models.EmailAddress` as carried in
`SocialLogin.email_addresses`. -/
structure EmailAddress where
  user : Option Nat
  email : String
  verified : Bool
  primary : Bool
deriving Repr, DecidableEq

/-- Row of the `SocialAccount` model.  Foreign keys (`user`, `app`) are
stored as primary keys of the referenced rows. -/
structure SocialAccount where
  pk : Option Nat
  user : Option Nat
  provider : String
  uid : String
  extra_data : ExtraData
  app : Option Nat
deriving Repr, DecidableEq

/-- Row of the `SocialToken` model.  `app` is a non-nullable foreign key set
by the provider at construction time; `account` is filled in by
`SocialLogin.save` / `SocialLogin.lookup`. -/
structure SocialToken where
  pk : Option Nat
  app : Nat
  account : Option Nat
  token : String
  token_secret : String
  expires_at : Option Int
deriving Repr, DecidableEq

/-- The relational store backing the models: one list of rows per table and
the next fresh primary key. -/
structure DB where
  apps : List SocialApp
  users : List User
  accounts : List SocialAccount
  tokens : List SocialToken
  nextPk : Nat
deriving Repr, DecidableEq

/-- `request.session`: we model only the `'socialaccount_state'` key used by
the handshake-state stash. -/
structure Session where
  socialaccount_state : Option (StateMap × String)
deriving Repr, DecidableEq

/-- The parts of the Django `request` consumed by this module: the current
site (`get_current_site(request).id`) and the session store. -/
structure Request where
  site : Nat
  session : Session
deriving Repr, DecidableEq

/-- Semantics of Django's `QuerySet.get(...)` on a filtered table: exactly
one matching row is returned; zero raises the model's `DoesNotExist`;
two or more raise `MultipleObjectsReturned`. -/
def djangoGet {α : Type} (rows : List α) (p : α → Bool) (dne : Exc) : Except Exc α :=
  match rows.filter p with
  | [] => .error dne
  | [x] => .ok x
  | _ :: _ :: _ => .error .multipleObjectsReturned

/-- `SocialAppManager.get_current(provider, request)`: `self.get(sites__id=site.id,
provider=provider)` where `site = get_current_site(request)`. -/
def SocialAppManager.get_current (db : DB) (provider : String) (request : Request) :
    Except Exc SocialApp :=
  djangoGet db.apps
    (fun app => app.sites.contains request.site && app.provider == provider)
    .appDoesNotExist

/-- Django `Model.save()` for the user row: insert with a fresh primary key
when `pk` is absent, otherwise update the row in place. -/
def User.save (u : User) (db : DB) : User × DB :=
  match u.pk with
  | none =>
    let u' : User := { u with pk := some db.nextPk }
    (u', { db with users := db.users ++ [u'], nextPk := db.nextPk + 1 })
  | some pk =>
    (u, { db with users := db.users.map (fun r => if r.pk == some pk then u else r) })

/-- Django `Model.save()` for a `SocialAccount` row. -/
def SocialAccount.save (a : SocialAccount) (db : DB) : SocialAccount × DB :=
  match a.pk with
  | none =>
    let a' : SocialAccount := { a with pk := some db.nextPk }
    (a', { db with accounts := db.accounts ++ [a'], nextPk := db.nextPk + 1 })
  | some pk =>
    (a, { db with accounts := db.accounts.map (fun r => if r.pk == some pk then a else r) })

/-- Django `Model.save()` for a `SocialToken` row. -/
def SocialToken.save (t : SocialToken) (db : DB) : SocialToken × DB :=
  match t.pk with
  | none =>
    let t' : SocialToken := { t with pk := some db.nextPk }
    (t', { db with tokens := db.tokens ++ [t'], nextPk := db.nextPk + 1 })
  | some pk =>
    (t, { db with tokens := db.tokens.map (fun r => if r.pk == some pk then t else r) })

/-- The `SocialLogin` aggregate: candidate user, candidate account, optional
token, provider-reported email addresses and the handshake state map. -/
structure SocialLogin where
  user : User
  account : SocialAccount
  token : Option SocialToken
  email_addresses : List EmailAddress
  state : StateMap
deriving Repr, DecidableEq

/-- `SocialLogin.is_existing`: `return self.account.pk` — truthy iff the held
account is backed by a database record. -/
def SocialLogin.is_existing (l : SocialLogin) : Bool :=
  l.account.pk.isSome

/-- `SocialLogin.save(request, connect=False)`.  The returned triple is the
updated aggregate, the updated store, and the list of
`setup_user_email(request, user, email_addresses)` collaborator calls made
(empty for a connect-style save). -/
def SocialLogin.save (l : SocialLogin) (db : DB) (request : Request)
    (store_tokens connect : Bool) :
    Except Exc (SocialLogin × DB × List (User × List EmailAddress)) :=
  if l.is_existing then .error .assertionError
  else
    match SocialAppManager.get_current db l.account.provider request with
    | .error e => .error e
    | .ok app =>
      let (user, db1) := l.user.save db
      let account0 : SocialAccount := { l.account with user := user.pk, app := some app.id }
      let (account, db2) := account0.save db1
      let (token, db3) :=
        if store_tokens then
          match l.token with
          | some t =>
            let t0 : SocialToken := { t with account := account.pk }
            let (t1, db') := t0.save db2
            (some t1, db')
          | none => (none, db2)
        else (l.token, db2)
      let calls := if connect then [] else [(user, l.email_addresses)]
      .ok ({ l with user := user, account := account, token := token }, db3, calls)

/-- `SocialLogin.connect(request, user)`: `self.user = user; self.save(request,
connect=True)`. -/
def SocialLogin.connect (l : SocialLogin) (db : DB) (request : Request)
    (store_tokens : Bool) (user : User) :
    Except Exc (SocialLogin × DB × List (User × List EmailAddress)) :=
  SocialLogin.save { l with user := user } db request store_tokens true

/-- `SocialLogin.lookup(request)`.  Faithful to the control flow of the
source: the `except SocialApp.DoesNotExist` handler executes
`logger.debug(...)` first, but the module never defines `logger`, so that
handler raises `NameError` instead of logging and re-raising. -/
def SocialLogin.lookup (l : SocialLogin) (db : DB) (request : Request)
    (store_tokens : Bool) : Except Exc (SocialLogin × DB) :=
  if l.is_existing then .error .assertionError
  else
    match SocialAppManager.get_current db l.account.provider request with
    | .error .appDoesNotExist => .error .nameError
    | .error e => .error e
    | .ok app =>
      match djangoGet db.accounts
          (fun r => r.app == some app.id && r.uid == l.account.uid)
          .accountDoesNotExist with
      | .error .accountDoesNotExist => .ok (l, db)
      | .error e => .error e
      | .ok a0 =>
        let a : SocialAccount := { a0 with extra_data := l.account.extra_data }
        match djangoGet db.users (fun u => u.pk == a.user) .userDoesNotExist with
        | .error e => .error e
        | .ok user =>
          let (a1, db1) := a.save db
          if store_tokens then
            match l.token with
            | some tok =>
              if tok.pk.isSome then .error .assertionError
              else
                match djangoGet db1.tokens
                    (fun r => r.account == a1.pk && r.app == tok.app)
                    .tokenDoesNotExist with
                | .ok t0 =>
                  let t : SocialToken :=
                    { t0 with
                      token := tok.token
                      token_secret :=
                        if tok.token_secret ≠ "" then tok.token_secret else t0.token_secret
                      expires_at := tok.expires_at }
                  let (t1, db2) := t.save db1
                  .ok ({ l with account := a1, user := user, token := some t1 }, db2)
                | .error .tokenDoesNotExist =>
                  let t : SocialToken := { tok with account := a1.pk }
                  let (t1, db2) := t.save db1
                  .ok ({ l with account := a1, user := user, token := some t1 }, db2)
                | .error e => .error e
            | none => .ok ({ l with account := a1, user := user }, db1)
          else .ok ({ l with account := a1, user := user }, db1)

/-- Transport-safe scalar values (the JSON-like value space of the serialized
form). -/
inductive TValue where
  | str (s : String)
  | nat (n : Nat)
  | int (i : Int)
  | bool (b : Bool)
  | dict (d : List (String × String))
  | null
deriving Repr, DecidableEq

/-- Encode an optional primary key / foreign key as a transport value. -/
def TValue.ofOptNat : Option Nat → TValue
  | none => .null
  | some n => .nat n

/-- Decode an optional primary key / foreign key; fails on other shapes. -/
def TValue.toOptNat : TValue → Option (Option Nat)
  | .null => some none
  | .nat n => some (some n)
  | _ => none

/-- Encode an optional timestamp as a transport value. -/
def TValue.ofOptInt : Option Int → TValue
  | none => .null
  | some i => .int i

/-- Decode an optional timestamp; fails on other shapes. -/
def TValue.toOptInt : TValue → Option (Option Int)
  | .null => some none
  | .int i => some (some i)
  | _ => none

/-- Modelled from the spec: `serialize_instance` (from `allauth/utils.py`, not
part of this repository snapshot) applied to a `SocialAccount`.  The spec
requires a transport-safe structure from which `deserialize` "reconstructs an
equivalent NEW-state aggregate with identical field values"; we model it as
the list of the row's field values in declaration order. -/
def serialize_instance_account (a : SocialAccount) : List TValue :=
  [TValue.ofOptNat a.pk, TValue.ofOptNat a.user, .str a.provider, .str a.uid,
   .dict a.extra_data, TValue.ofOptNat a.app]

/-- Modelled from the spec: `deserialize_instance(SocialAccount, data)` (from
`allauth/utils.py`, not in this snapshot): rebuild the row from its
serialized field values, failing on malformed data. -/
def deserialize_instance_account : List TValue → Option SocialAccount
  | [pkv, uv, .str provider, .str uid, .dict ed, av] => do
    let pk ← pkv.toOptNat
    let user ← uv.toOptNat
    let app ← av.toOptNat
    some { pk := pk, user := user, provider := provider, uid := uid,
           extra_data := ed, app := app }
  | _ => none

/-- Modelled from the spec: `serialize_instance` applied to a user row. -/
def serialize_instance_user (u : User) : List TValue :=
  [TValue.ofOptNat u.pk, .str u.username, .str u.email]

/-- Modelled from the spec: `deserialize_instance(get_user_model(), data)`. -/
def deserialize_instance_user : List TValue → Option User
  | [pkv, .str username, .str email] => do
    let pk ← pkv.toOptNat
    some { pk := pk, username := username, email := email }
  | _ => none

/-- Modelled from the spec: `serialize_instance` applied to a `SocialToken`. -/
def serialize_instance_token (t : SocialToken) : List TValue :=
  [TValue.ofOptNat t.pk, .nat t.app, TValue.ofOptNat t.account, .str t.token,
   .str t.token_secret, TValue.ofOptInt t.expires_at]

/-- Modelled from the spec: `deserialize_instance(SocialToken, data)`. -/
def deserialize_instance_token : List TValue → Option SocialToken
  | [pkv, .nat app, av, .str token, .str secret, ev] => do
    let pk ← pkv.toOptNat
    let account ← av.toOptNat
    let expires ← ev.toOptInt
    some { pk := pk, app := app, account := account, token := token,
           token_secret := secret, expires_at := expires }
  | _ => none

/-- Modelled from the spec: `serialize_instance` applied to an `EmailAddress`. -/
def serialize_instance_email (e : EmailAddress) : List TValue :=
  [TValue.ofOptNat e.user, .str e.email, .bool e.verified, .bool e.primary]

/-- Modelled from the spec: `deserialize_instance(EmailAddress, data)`. -/
def deserialize_instance_email : List TValue → Option EmailAddress
  | [uv, .str email, .bool verified, .bool primary] => do
    let user ← uv.toOptNat
    some { user := user, email := email, verified := verified, primary := primary }
  | _ => none

/-- The transport structure produced by `SocialLogin.serialize`: the dict with
keys `account`, `user`, `state`, `email_addresses`, and (only when a token is
held) `token`. -/
structure SerializedSocialLogin where
  account : List TValue
  user : List TValue
  state : StateMap
  email_addresses : List (List TValue)
  token : Option (List TValue)
deriving Repr, DecidableEq

/-- `SocialLogin.serialize()`: serialize account, user and each email address;
copy the state map; include the token only when one is held
(`if self.token: ret['token'] = ...`). -/
def SocialLogin.serialize (l : SocialLogin) : SerializedSocialLogin :=
  { account := serialize_instance_account l.account
    user := serialize_instance_user l.user
    state := l.state
    email_addresses := l.email_addresses.map serialize_instance_email
    token := l.token.map serialize_instance_token }

/-- The `for ea in data['email_addresses']` loop of `SocialLogin.deserialize`:
deserialize each entry in order, failing on malformed data. -/
def deserialize_email_list : List (List TValue) → Option (List EmailAddress)
  | [] => some []
  | d :: ds => do
    let e ← deserialize_instance_email d
    let es ← deserialize_email_list ds
    some (e :: es)

/-- `SocialLogin.deserialize(data)`: rebuild account, user, optional token and
each email address, then assemble a fresh aggregate carrying `data['state']`. -/
def SocialLogin.deserialize (data : SerializedSocialLogin) : Option SocialLogin := do
  let account ← deserialize_instance_account data.account
  let user ← deserialize_instance_user data.user
  let token ←
    match data.token with
    | none => some none
    | some td => (deserialize_instance_token td).map some
  let email_addresses ← deserialize_email_list data.email_addresses
  some { user := user, account := account, token := token,
         email_addresses := email_addresses, state := data.state }

/-- `SocialLogin.get_redirect_url(request)`: `self.state.get('next')`. -/
def SocialLogin.get_redirect_url (l : SocialLogin) : Option String :=
  l.state.lookup "next"

/-- `SocialLogin.stash_state(request)`: stores `(state, verifier)` under the
`'socialaccount_state'` session key and returns the verifier.  The verifier
is produced externally by `get_random_string()`, so it is a parameter here. -/
def SocialLogin.stash_state (request : Request) (state : StateMap) (verifier : String) :
    Request × String :=
  ({ request with session := { socialaccount_state := some (state, verifier) } }, verifier)

/-- `SocialLogin.unstash_state(request)`: `PermissionDenied` when nothing is
stashed, otherwise pop and return the state. -/
def SocialLogin.unstash_state (request : Request) : Except Exc StateMap × Request :=
  match request.session.socialaccount_state with
  | none => (.error .permissionDenied, request)
  | some (state, _) =>
    (.ok state, { request with session := { socialaccount_state := none } })

/-- `SocialLogin.verify_and_unstash_state(request, verifier)`: `PermissionDenied`
when nothing is stashed; otherwise the entry is popped first, and
`PermissionDenied` is raised when the supplied verifier differs from the
stashed one; on a match the stashed state map is returned. -/
def SocialLogin.verify_and_unstash_state (request : Request) (verifier : String) :
    Except Exc StateMap × Request :=
  match request.session.socialaccount_state with
  | none => (.error .permissionDenied, request)
  | some (state, verifier2) =>
    let request' : Request := { request with session := { socialaccount_state := none } }
    if verifier ≠ verifier2 then (.error .permissionDenied, request')
    else (.ok state, request')

/-! ### Helper lemmas -/

theorem toOptNat_ofOptNat (o : Option Nat) : (TValue.ofOptNat o).toOptNat = some o := by
  cases o <;> rfl

theorem toOptInt_ofOptInt (o : Option Int) : (TValue.ofOptInt o).toOptInt = some o := by
  cases o <;> rfl

theorem deserialize_serialize_account (a : SocialAccount) :
    deserialize_instance_account (serialize_instance_account a) = some a := by
  rcases a with ⟨pk, user, provider, uid, ed, app⟩
  cases pk <;> cases user <;> cases app <;> rfl

theorem deserialize_serialize_user (u : User) :
    deserialize_instance_user (serialize_instance_user u) = some u := by
  rcases u with ⟨pk, username, email⟩
  cases pk <;> rfl

theorem deserialize_serialize_token (t : SocialToken) :
    deserialize_instance_token (serialize_instance_token t) = some t := by
  rcases t with ⟨pk, app, account, token, secret, expires⟩
  cases pk <;> cases account <;> cases expires <;> rfl

theorem deserialize_serialize_email (e : EmailAddress) :
    deserialize_instance_email (serialize_instance_email e) = some e := by
  rcases e with ⟨user, email, verified, primary⟩
  cases user <;> rfl

theorem deserialize_email_list_map (xs : List EmailAddress) :
    deserialize_email_list (xs.map serialize_instance_email) = some xs := by
  induction xs with
  | nil => rfl
  | cons x xs ih => simp [deserialize_email_list, deserialize_serialize_email, ih]

theorem djangoGet_ok_mem {α : Type} {rows : List α} {p : α → Bool} {e : Exc} {x : α}
    (h : djangoGet rows p e = .ok x) : x ∈ rows ∧ p x = true := by
  unfold djangoGet at h
  rcases hf : rows.filter p with _ | ⟨a, _ | ⟨b, rest⟩⟩ <;> rw [hf] at h
  · simp at h
  · simp at h
    subst h
    have ha : a ∈ rows.filter p := by rw [hf]; exact List.mem_singleton_self a
    exact ⟨List.mem_of_mem_filter ha, List.of_mem_filter ha⟩
  · simp at h

/-! ### Example fixtures (used by witness theorems) -/

/-- A configured Google application registered for site 1. -/
def exApp : SocialApp :=
  { id := 1, provider := "google", name := "google", client_id := "app123id",
    secret := "dummy", key := "google", sites := [1] }

/-- A request on site 1 with an empty session. -/
def exRequest : Request := { site := 1, session := { socialaccount_state := none } }

/-- A request whose session holds a stashed handshake state with verifier
`"ver"`. -/
def exStashedRequest : Request :=
  { site := 1, session := { socialaccount_state := some ([("process", "login")], "ver") } }

/-- A candidate (unsaved) user as a provider adapter would build it. -/
def exUserNew : User :=
  { pk := none, username := "raymond", email := "raymond.penners@gmail.com" }

/-- A candidate (unsaved) account for the Google identity of the spec's
end-to-end scenario. -/
def exAccountNew : SocialAccount :=
  { pk := none, user := none, provider := "google", uid := "108204268033311374519",
    extra_data := [("id", "108204268033311374519")], app := none }

/-- A candidate (unsaved) token from the handshake. -/
def exTokenNew : SocialToken :=
  { pk := none, app := 1, account := none, token := "testac", token_secret := "testrf",
    expires_at := none }

/-- A provider-reported email address. -/
def exEmail : EmailAddress :=
  { user := none, email := "raymond.penners@gmail.com", verified := true, primary := true }

/-- A NEW-state aggregate (nothing persisted yet). -/
def exLoginNew : SocialLogin :=
  { user := exUserNew, account := exAccountNew, token := some exTokenNew,
    email_addresses := [exEmail], state := [("process", "login")] }

/-- A persisted user row. -/
def exUserRow : User :=
  { pk := some 2, username := "raymond", email := "raymond.penners@gmail.com" }

/-- A persisted account row linked to `exApp` and `exUserRow`. -/
def exAccountRow : SocialAccount :=
  { pk := some 3, user := some 2, provider := "google", uid := "108204268033311374519",
    extra_data := [("id", "old")], app := some 1 }

/-- A persisted token row for (`exApp`, `exAccountRow`). -/
def exTokenRow : SocialToken :=
  { pk := some 4, app := 1, account := some 3, token := "oldac", token_secret := "oldrf",
    expires_at := some 100 }

/-- An aggregate wrapping an already-persisted account. -/
def exLoginExisting : SocialLogin :=
  { user := exUserRow, account := exAccountRow, token := none,
    email_addresses := [], state := [] }

/-- Empty store (no applications configured). -/
def exDbEmpty : DB := { apps := [], users := [], accounts := [], tokens := [], nextPk := 1 }

/-- Store with two applications for the same (provider, site) pair. -/
def exDbTwoApps : DB :=
  { apps := [exApp, { exApp with id := 2 }], users := [], accounts := [], tokens := [],
    nextPk := 3 }

/-- Store holding only the configured application. -/
def exDbAppOnly : DB :=
  { apps := [exApp], users := [], accounts := [], tokens := [], nextPk := 2 }

/-- Store after a first login: app, user, account and token all persisted. -/
def exDbFull : DB :=
  { apps := [exApp], users := [exUserRow], accounts := [exAccountRow],
    tokens := [exTokenRow], nextPk := 5 }

/-! ### Claim theorems -/

/-- C1: `verify_and_unstash_state` fails with `AccessDenied`
(`PermissionDenied`) when nothing is stashed in the session and when the
supplied verifier differs from the stashed one; when it matches, the stashed
state map is returned, the stash entry is removed, and a second call on the
resulting session fails with `AccessDenied` for every verifier. -/
theorem C1_verify_and_unstash_state (r : Request) (verifier : String) :
    (r.session.socialaccount_state = none →
      (SocialLogin.verify_and_unstash_state r verifier).1 = .error .permissionDenied) ∧
    (∀ st v2, r.session.socialaccount_state = some (st, v2) → verifier ≠ v2 →
      (SocialLogin.verify_and_unstash_state r verifier).1 = .error .permissionDenied) ∧
    (∀ st, r.session.socialaccount_state = some (st, verifier) →
      (SocialLogin.verify_and_unstash_state r verifier).1 = .ok st ∧
      (SocialLogin.verify_and_unstash_state r verifier).2.session.socialaccount_state
        = none ∧
      ∀ v', (SocialLogin.verify_and_unstash_state
        (SocialLogin.verify_and_unstash_state r verifier).2 v').1
          = .error .permissionDenied) := by
  refine ⟨?_, ?_, ?_⟩
  · intro h
    simp [SocialLogin.verify_and_unstash_state, h]
  · intro st v2 h hne
    simp [SocialLogin.verify_and_unstash_state, h, hne]
  · intro st h
    refine ⟨?_, ?_, ?_⟩ <;> simp [SocialLogin.verify_and_unstash_state, h]

/-- Witness for C1 at a concrete stashed session. -/
theorem C1_verify_and_unstash_state_witness :
    (SocialLogin.verify_and_unstash_state exStashedRequest "ver").1
      = .ok [("process", "login")] ∧
    (SocialLogin.verify_and_unstash_state exStashedRequest "forged").1
      = .error .permissionDenied ∧
    (SocialLogin.verify_and_unstash_state exRequest "ver").1
      = .error .permissionDenied ∧
    (SocialLogin.verify_and_unstash_state
      (SocialLogin.verify_and_unstash_state exStashedRequest "ver").2 "ver").1
        = .error .permissionDenied :=
  ⟨((C1_verify_and_unstash_state exStashedRequest "ver").2.2 _ rfl).1,
   (C1_verify_and_unstash_state exStashedRequest "forged").2.1 _ "ver" rfl (by decide),
   (C1_verify_and_unstash_state exRequest "ver").1 rfl,
   ((C1_verify_and_unstash_state exStashedRequest "ver").2.2 _ rfl).2.2 "ver"⟩

/-- C2: calling `save` on an aggregate whose account is already persisted
(`is_existing` true) faults with the programming-error assertion before any
persistence happens; it never silently succeeds. -/
theorem C2_save_existing_faults (l : SocialLogin) (db : DB) (request : Request)
    (store_tokens connect : Bool) (h : l.is_existing = true) :
    SocialLogin.save l db request store_tokens connect = .error .assertionError := by
  simp [SocialLogin.save, h]

/-- Witness for C2 on a concrete already-persisted aggregate. -/
theorem C2_save_existing_faults_witness :
    SocialLogin.is_existing exLoginExisting = true ∧
    SocialLogin.save exLoginExisting exDbFull exRequest true false
      = .error .assertionError :=
  ⟨rfl, C2_save_existing_faults exLoginExisting exDbFull exRequest true false rfl⟩

/-- C5: `deserialize (serialize x)` reconstructs an aggregate with identical
account, user, optional token, email list and state map for every NEW-state
aggregate. -/
theorem C5_serialize_deserialize_roundtrip (l : SocialLogin)
    (h : l.is_existing = false) :
    SocialLogin.deserialize (SocialLogin.serialize l) = some l := by
  rcases l with ⟨u, a, t, eas, st⟩
  cases t <;>
    simp [SocialLogin.serialize, SocialLogin.deserialize,
      deserialize_serialize_account, deserialize_serialize_user,
      deserialize_serialize_token, deserialize_email_list_map]

/-- Witness for C5 on a concrete NEW-state aggregate. -/
theorem C5_serialize_deserialize_roundtrip_witness :
    SocialLogin.is_existing exLoginNew = false ∧
    SocialLogin.deserialize (SocialLogin.serialize exLoginNew) = some exLoginNew :=
  ⟨rfl, C5_serialize_deserialize_roundtrip exLoginNew rfl⟩

/-- C7: resolving the current application fails when zero rows match the
(provider, site) pair and when two or more rows match; it succeeds only when
exactly one row matches (ambiguity is never silently resolved). -/
theorem C7_get_current_zero_or_multiple (db : DB) (provider : String) (request : Request) :
    ((db.apps.filter
        (fun app => app.sites.contains request.site && app.provider == provider)) = [] →
      SocialAppManager.get_current db provider request = .error .appDoesNotExist) ∧
    (2 ≤ (db.apps.filter
        (fun app => app.sites.contains request.site && app.provider == provider)).length →
      SocialAppManager.get_current db provider request = .error .multipleObjectsReturned) ∧
    (∀ app, SocialAppManager.get_current db provider request = .ok app →
      (db.apps.filter
        (fun app => app.sites.contains request.site && app.provider == provider)).length
          = 1) := by
  unfold SocialAppManager.get_current djangoGet
  refine ⟨?_, ?_, ?_⟩
  · intro h
    rw [h]
  · intro h
    rcases hf : db.apps.filter
        (fun app => app.sites.contains request.site && app.provider == provider)
      with _ | ⟨a, _ | ⟨b, rest⟩⟩
    · rw [hf] at h; simp at h
    · rw [hf] at h; simp at h
    · rw [hf]
  · intro app h
    rcases hf : db.apps.filter
        (fun app => app.sites.contains request.site && app.provider == provider)
      with _ | ⟨a, _ | ⟨b, rest⟩⟩
    · rw [hf] at h; simp at h
    · rw [hf]; rfl
    · rw [hf] at h; simp at h

/-- Witness for C7: zero configured apps and two configured apps both fail. -/
theorem C7_get_current_zero_or_multiple_witness :
    SocialAppManager.get_current exDbEmpty "google" exRequest
      = .error .appDoesNotExist ∧
    SocialAppManager.get_current exDbTwoApps "google" exRequest
      = .error .multipleObjectsReturned :=
  ⟨(C7_get_current_zero_or_multiple exDbEmpty "google" exRequest).1 rfl,
   (C7_get_current_zero_or_multiple exDbTwoApps "google" exRequest).2.1 (by decide)⟩

/-- C4 (code bug): when no application resolves for the aggregate's provider,
the `except SocialApp.DoesNotExist` handler in `lookup` executes
`logger.debug(...)`, but `models.py` never defines or imports `logger`, so the
handler raises `NameError` instead of logging the diagnostic and re-raising
the resolution error.  At a concrete failing input the result is `NameError`,
not the re-raised `ProviderAppNotConfigured` (`SocialApp.DoesNotExist`). -/
theorem C4_lookup_app_missing_raises_nameerror :
    SocialLogin.lookup exLoginNew exDbEmpty exRequest true = .error .nameError ∧
    SocialLogin.lookup exLoginNew exDbEmpty exRequest true ≠ .error .appDoesNotExist := by
  refine ⟨rfl, fun h => ?_⟩
  have h' : (Exc.nameError : Exc) = .appDoesNotExist := Except.error.inj h
  exact Exc.noConfusion h'

/-- C8: when the application resolves but no account row matches
(application, uid), `lookup` is a silent no-op: it returns without error and
leaves both the aggregate and the store exactly unchanged. -/
theorem C8_lookup_account_absent_noop (l : SocialLogin) (db : DB) (request : Request)
    (store_tokens : Bool) (app : SocialApp)
    (h0 : l.is_existing = false)
    (happ : SocialAppManager.get_current db l.account.provider request = .ok app)
    (hacct : db.accounts.filter
        (fun r => r.app == some app.id && r.uid == l.account.uid) = []) :
    SocialLogin.lookup l db request store_tokens = .ok (l, db) := by
  simp [SocialLogin.lookup, h0, happ, djangoGet, hacct]

/-- Witness for C8: fresh Google identity, app configured, no matching
account row. -/
theorem C8_lookup_account_absent_noop_witness :
    SocialLogin.is_existing exLoginNew = false ∧
    SocialAppManager.get_current exDbAppOnly "google" exRequest = .ok exApp ∧
    SocialLogin.lookup exLoginNew exDbAppOnly exRequest true
      = .ok (exLoginNew, exDbAppOnly) :=
  ⟨rfl, rfl,
   C8_lookup_account_absent_noop exLoginNew exDbAppOnly exRequest true exApp
     rfl rfl rfl⟩

/-- Specification-side pipeline for C6, following the claim's wording: first
resolve the current Application for the account's provider, then persist the
User, then bind `Account.user`/`Account.app` and persist the Account, then —
only when token persistence is enabled and a Token is present — bind
`Token.account` and persist the Token; finally invoke the email-setup
collaborator with the aggregate's email list exactly when the save is not
connect-style. -/
def saveSpec (l : SocialLogin) (db : DB) (request : Request)
    (store_tokens connect : Bool) :
    Except Exc (SocialLogin × DB × List (User × List EmailAddress)) :=
  match SocialAppManager.get_current db l.account.provider request with
  | .error e => .error e
  | .ok app =>
    let (user, db1) := l.user.save db
    let (account, db2) :=
      SocialAccount.save { l.account with user := user.pk, app := some app.id } db1
    match store_tokens, l.token with
    | true, some t =>
      let (t1, db3) := SocialToken.save { t with account := account.pk } db2
      .ok ({ l with user := user, account := account, token := some t1 }, db3,
        if connect then [] else [(user, l.email_addresses)])
    | _, _ =>
      .ok ({ l with user := user, account := account }, db2,
        if connect then [] else [(user, l.email_addresses)])

/-- C6: on a NEW-state aggregate, `save` is exactly the staged pipeline of
the claim — resolve Application, persist User, bind and persist Account,
conditionally bind and persist Token, email setup only for non-connect
saves. -/
theorem C6_save_follows_pipeline (l : SocialLogin) (db : DB) (request : Request)
    (store_tokens connect : Bool) (h : l.is_existing = false) :
    SocialLogin.save l db request store_tokens connect
      = saveSpec l db request store_tokens connect := by
  unfold SocialLogin.save saveSpec
  simp only [h, Bool.false_eq_true, if_false]
  cases SocialAppManager.get_current db l.account.provider request with
  | error e => rfl
  | ok app =>
    obtain ⟨user, db1⟩ := l.user.save db
    obtain ⟨account, db2⟩ :=
      SocialAccount.save { l.account with user := user.pk, app := some app.id } db1
    cases store_tokens with
    | false => cases l.token <;> rfl
    | true =>
      cases l.token with
      | none => rfl
      | some t =>
        obtain ⟨t1, db3⟩ := SocialToken.save { t with account := account.pk } db2
        rfl

/-- Witness for C6 on a concrete NEW-state aggregate with a token. -/
theorem C6_save_follows_pipeline_witness :
    SocialLogin.is_existing exLoginNew = false ∧
    SocialLogin.save exLoginNew exDbAppOnly exRequest true false
      = saveSpec exLoginNew exDbAppOnly exRequest true false :=
  ⟨rfl, C6_save_follows_pipeline exLoginNew exDbAppOnly exRequest true false rfl⟩

/-- C3: in `lookup`'s update path — existing account found, token carried and
unsaved, token persistence enabled, and a stored token row present for the
(carried token's app, resolved account) pair — the stored row's access-token
value and expiry are always overwritten with the carried values, its
secret/refresh value is overwritten only when the carried secret is non-empty
and is retained unchanged otherwise, the updated row is persisted in place
(no row added or removed), and the aggregate's token is rebound to the
updated row. -/
theorem C3_lookup_token_update (l : SocialLogin) (db : DB) (request : Request)
    (app : SocialApp) (a0 : SocialAccount) (u : User) (tok t0 : SocialToken)
    (apk tpk : Nat)
    (h0 : l.is_existing = false)
    (happ : SocialAppManager.get_current db l.account.provider request = .ok app)
    (hacct : djangoGet db.accounts
      (fun r => r.app == some app.id && r.uid == l.account.uid)
      .accountDoesNotExist = .ok a0)
    (hapk : a0.pk = some apk)
    (huser : djangoGet db.users (fun r => r.pk == a0.user) .userDoesNotExist = .ok u)
    (htok : l.token = some tok)
    (htokpk : tok.pk = none)
    (htget : djangoGet db.tokens
      (fun r => r.account == some apk && r.app == tok.app) .tokenDoesNotExist = .ok t0)
    (htpk : t0.pk = some tpk) :
    ∃ l' db' t',
      SocialLogin.lookup l db request true = .ok (l', db') ∧
      l'.token = some t' ∧
      t'.pk = t0.pk ∧
      t'.token = tok.token ∧
      t'.expires_at = tok.expires_at ∧
      (tok.token_secret = "" → t'.token_secret = t0.token_secret) ∧
      (tok.token_secret ≠ "" → t'.token_secret = tok.token_secret) ∧
      t' ∈ db'.tokens ∧
      db'.tokens.length = db.tokens.length := by
  refine ⟨{ l with
      account := { a0 with extra_data := l.account.extra_data }
      user := u
      token := some { t0 with
        token := tok.token
        token_secret := if tok.token_secret ≠ "" then tok.token_secret else t0.token_secret
        expires_at := tok.expires_at } },
    { db with
      accounts := db.accounts.map (fun r =>
        if r.pk == some apk then { a0 with extra_data := l.account.extra_data } else r)
      tokens := db.tokens.map (fun r =>
        if r.pk == some tpk then { t0 with
          token := tok.token
          token_secret := if tok.token_secret ≠ "" then tok.token_secret else t0.token_secret
          expires_at := tok.expires_at } else r) },
    { t0 with
      token := tok.token
      token_secret := if tok.token_secret ≠ "" then tok.token_secret else t0.token_secret
      expires_at := tok.expires_at },
    ?_, rfl, rfl, rfl, rfl, ?_, ?_, ?_, ?_⟩
  · simp [SocialLogin.lookup, SocialAccount.save, SocialToken.save, h0, happ, hacct,
      hapk, huser, htok, htokpk, htget, htpk]
  · intro h
    simp [h]
  · intro h
    simp [h]
  · obtain ⟨hmem, -⟩ := djangoGet_ok_mem htget
    have hmap := List.mem_map_of_mem (fun r : SocialToken =>
      if r.pk == some tpk then { t0 with
        token := tok.token
        token_secret := if tok.token_secret ≠ "" then tok.token_secret else t0.token_secret
        expires_at := tok.expires_at } else r) hmem
    simpa [htpk] using hmap
  · simp

/-- Witness for C3: re-login with a stored token present; the carried secret
is non-empty here and the theorem's hypotheses all hold by evaluation. -/
theorem C3_lookup_token_update_witness :
    SocialLogin.is_existing exLoginNew = false ∧
    (∃ l' db' t',
      SocialLogin.lookup exLoginNew exDbFull exRequest true = .ok (l', db') ∧
      l'.token = some t' ∧
      t'.pk = exTokenRow.pk ∧
      t'.token = exTokenNew.token ∧
      t'.expires_at = exTokenNew.expires_at ∧
      (exTokenNew.token_secret = "" → t'.token_secret = exTokenRow.token_secret) ∧
      (exTokenNew.token_secret ≠ "" → t'.token_secret = exTokenNew.token_secret) ∧
      t' ∈ db'.tokens ∧
      db'.tokens.length = exDbFull.tokens.length) :=
  ⟨rfl, C3_lookup_token_update exLoginNew exDbFull exRequest exApp exAccountRow
    exUserRow exTokenNew exTokenRow 3 4 rfl rfl rfl rfl rfl rfl rfl rfl rfl⟩

/-- C9: for every valid (provider, uid) pair, running `lookup` twice — each
time on a fresh NEW-state aggregate carrying the same account and token data,
against a store holding the configured application and an already-linked
account — reaches a fixpoint: the first call rebinds to the persisted account
and persists the token, and the second call returns exactly the same
aggregate and the same store, leaving exactly one token row for the
(application, account) pair. -/
theorem C9_lookup_idempotent
    (provider uid name clientid secret key username email tokval toksecret : String)
    (edNew edOld : ExtraData) (sites : List Nat) (site appid apk upk n : Nat)
    (expires : Option Int) (eas : List EmailAddress) (st : StateMap)
    (hsite : site ∈ sites) :
    ∃ l1 db1,
      SocialLogin.lookup
        ⟨⟨none, username, email⟩, ⟨none, none, provider, uid, edNew, none⟩,
         some ⟨none, appid, none, tokval, toksecret, expires⟩, eas, st⟩
        ⟨[⟨appid, provider, name, clientid, secret, key, sites⟩],
         [⟨some upk, username, email⟩],
         [⟨some apk, some upk, provider, uid, edOld, some appid⟩], [], n⟩
        ⟨site, ⟨none⟩⟩ true = .ok (l1, db1) ∧
      SocialLogin.lookup
        ⟨⟨none, username, email⟩, ⟨none, none, provider, uid, edNew, none⟩,
         some ⟨none, appid, none, tokval, toksecret, expires⟩, eas, st⟩
        db1 ⟨site, ⟨none⟩⟩ true = .ok (l1, db1) ∧
      (db1.tokens.filter (fun r => r.account == some apk && r.app == appid)).length
        = 1 := by
  refine ⟨⟨⟨some upk, username, email⟩, ⟨some apk, some upk, provider, uid, edNew, some appid⟩,
      some ⟨some n, appid, some apk, tokval, toksecret, expires⟩, eas, st⟩,
    ⟨[⟨appid, provider, name, clientid, secret, key, sites⟩],
     [⟨some upk, username, email⟩],
     [⟨some apk, some upk, provider, uid, edNew, some appid⟩],
     [⟨some n, appid, some apk, tokval, toksecret, expires⟩], n + 1⟩, ?_, ?_, ?_⟩ <;>
    simp [SocialLogin.lookup, SocialAppManager.get_current, djangoGet,
      SocialAccount.save, SocialToken.save, SocialLogin.is_existing,
      List.filter_cons, hsite]

/-- Witness for C9 at concrete provider and uid data. -/
theorem C9_lookup_idempotent_witness :
    (1 : Nat) ∈ [1] ∧
    ∃ l1 db1,
      SocialLogin.lookup
        ⟨⟨none, "raymond", "r@x.com"⟩, ⟨none, none, "google", "108", [("id", "108")], none⟩,
         some ⟨none, 1, none, "testac", "testrf", none⟩, [], []⟩
        ⟨[⟨1, "google", "google", "app123id", "dummy", "google", [1]⟩],
         [⟨some 2, "raymond", "r@x.com"⟩],
         [⟨some 3, some 2, "google", "108", [("id", "old")], some 1⟩], [], 5⟩
        ⟨1, ⟨none⟩⟩ true = .ok (l1, db1) ∧
      SocialLogin.lookup
        ⟨⟨none, "raymond", "r@x.com"⟩, ⟨none, none, "google", "108", [("id", "108")], none⟩,
         some ⟨none, 1, none, "testac", "testrf", none⟩, [], []⟩
        db1 ⟨1, ⟨none⟩⟩ true = .ok (l1, db1) ∧
      (db1.tokens.filter (fun r => r.account == some 3 && r.app == 1)).length = 1 :=
  ⟨by decide,
   C9_lookup_idempotent "google" "108" "google" "app123id" "dummy" "google" "raymond"
     "r@x.com" "testac" "testrf" [("id", "108")] [("id", "old")] [1] 1 1 3 2 5 none [] []
     (by decide)⟩

/-- C10 (implicit): in the found-account path with token persistence enabled,
`lookup` additionally requires the carried token to be unsaved — a carried
token that already has a primary key faults with the programming-error
assertion — and the search for the stored token row to update is keyed on the
carried token's own `app` foreign key together with the resolved account, not
on the application resolved in step 1: a stored row whose `app` equals the
resolved application's id but differs from the carried token's `app` is left
untouched, while the row keyed on the carried token's `app` is the one
updated. -/
theorem C10_lookup_token_assert_and_key (l : SocialLogin) (db : DB) (request : Request)
    (app : SocialApp) (a0 : SocialAccount) (u : User) (tok : SocialToken) (apk : Nat)
    (h0 : l.is_existing = false)
    (happ : SocialAppManager.get_current db l.account.provider request = .ok app)
    (hacct : djangoGet db.accounts
      (fun r => r.app == some app.id && r.uid == l.account.uid)
      .accountDoesNotExist = .ok a0)
    (hapk : a0.pk = some apk)
    (huser : djangoGet db.users (fun r => r.pk == a0.user) .userDoesNotExist = .ok u)
    (htok : l.token = some tok) :
    (∀ tpk, tok.pk = some tpk →
      SocialLogin.lookup l db request true = .error .assertionError) ∧
    (∀ tZ t0 tpk, tok.pk = none →
      db.tokens = [tZ, t0] →
      tZ.app = app.id → tZ.app ≠ tok.app → tZ.pk ≠ some tpk →
      t0.account = some apk → t0.app = tok.app → t0.pk = some tpk →
      ∃ l' db' t',
        SocialLogin.lookup l db request true = .ok (l', db') ∧
        l'.token = some t' ∧ t'.pk = some tpk ∧ t'.token = tok.token ∧
        db'.tokens = [tZ, t']) := by
  constructor
  · intro tpk htpk
    simp [SocialLogin.lookup, SocialAccount.save, h0, happ, hacct, hapk, huser,
      htok, htpk]
  · intro tZ t0 tpk htokpk hdbtok hZapp hZne hZpk ht0acc ht0app ht0pk
    have htget : djangoGet [tZ, t0]
        (fun r => r.account == some apk && r.app == tok.app) .tokenDoesNotExist
        = .ok t0 := by
      simp [djangoGet, List.filter_cons, hZne, ht0acc, ht0app]
    refine ⟨{ l with
        account := { a0 with extra_data := l.account.extra_data }
        user := u
        token := some { t0 with
          token := tok.token
          token_secret := if tok.token_secret ≠ "" then tok.token_secret else t0.token_secret
          expires_at := tok.expires_at } },
      { db with
        accounts := db.accounts.map (fun r =>
          if r.pk == some apk then { a0 with extra_data := l.account.extra_data } else r)
        tokens := [tZ, { t0 with
          token := tok.token
          token_secret := if tok.token_secret ≠ "" then tok.token_secret else t0.token_secret
          expires_at := tok.expires_at }] },
      { t0 with
        token := tok.token
        token_secret := if tok.token_secret ≠ "" then tok.token_secret else t0.token_secret
        expires_at := tok.expires_at },
      ?_, rfl, by simp [ht0pk], rfl, rfl⟩
    simp [SocialLogin.lookup, SocialAccount.save, SocialToken.save, h0,
      happ, hacct, hapk, huser, htok, htokpk, htget, hdbtok, hZpk, ht0pk]

/-- Witness for C10: part one at an aggregate carrying an already-saved
token; part two at an aggregate whose token's app (7) differs from the
resolved application (1), with a stored row under each — only the row keyed
on the carried token's app is updated. -/
theorem C10_lookup_token_assert_and_key_witness :
    SocialLogin.lookup { exLoginNew with token := some exTokenRow } exDbFull exRequest true
      = .error .assertionError ∧
    (∃ l' db' t',
      SocialLogin.lookup { exLoginNew with token := some { exTokenNew with app := 7 } }
        { exDbFull with
          tokens := [exTokenRow,
            { pk := some 9, app := 7, account := some 3, token := "oldac",
              token_secret := "oldrf", expires_at := some 100 }] }
        exRequest true = .ok (l', db') ∧
      l'.token = some t' ∧ t'.pk = some 9 ∧
      t'.token = ({ exTokenNew with app := 7 } : SocialToken).token ∧
      db'.tokens = [exTokenRow, t']) :=
  ⟨(C10_lookup_token_assert_and_key { exLoginNew with token := some exTokenRow }
      exDbFull exRequest exApp exAccountRow exUserRow exTokenRow 3
      rfl rfl rfl rfl rfl rfl).1 4 rfl,
   (C10_lookup_token_assert_and_key
      { exLoginNew with token := some { exTokenNew with app := 7 } }
      { exDbFull with
        tokens := [exTokenRow,
          { pk := some 9, app := 7, account := some 3, token := "oldac",
            token_secret := "oldrf", expires_at := some 100 }] }
      exRequest exApp exAccountRow exUserRow { exTokenNew with app := 7 } 3
      rfl rfl rfl rfl rfl rfl).2 exTokenRow
      { pk := some 9, app := 7, account := some 3, token := "oldac",
        token_secret := "oldrf", expires_at := some 100 } 9
      rfl rfl rfl (by decide) (by decide) rfl rfl rfl⟩
